import Mathlib

/-!
Shallow embedding of `scx-power-sync-dbus` (src/main.rs), a daemon that keeps
an scx scheduler mode in sync with the active power profile published on D-Bus.

External effects are modelled explicitly:
* invocations of the `scxctl` binary are a function `Env` from the argument
  list to either a spawn failure (`Except.error`) or a completed process
  `Output` (exit code, stdout, stderr);
* log output (`tracing::info!` / `warn!` / `error!`) is collected as a list of
  `LogEntry` values;
* the mutable `last` variable of the event loop is threaded as an
  `Option Profile` value.
-/

namespace ScxPowerSync

/-- The `Profile` enum of src/main.rs. -/
inductive Profile
  | Performance
  | Balanced
  | PowerSaver
deriving DecidableEq, Repr

/-- Embedding of `Profile::as_config_key` (src/main.rs lines 31-37). -/
def Profile.as_config_key : Profile → String
  | .Performance => "performance"
  | .Balanced => "balanced"
  | .PowerSaver => "power-saver"

/-- Embedding of `Profile::all` (src/main.rs lines 39-41), as a list. -/
def Profile.all : List Profile :=
  [.Performance, .Balanced, .PowerSaver]

/-- Embedding of `impl FromStr for Profile` (src/main.rs lines 44-54): the three exact
keys parse, everything else is an error carrying the offending string. -/
def Profile.from_str (s : String) : Except String Profile :=
  if s = "performance" then .ok .Performance
  else if s = "balanced" then .ok .Balanced
  else if s = "power-saver" then .ok .PowerSaver
  else .error ("unknown power profile: " ++ s)

/-- The `Mode` struct: scheduler name and a single opaque argument string. -/
structure Mode where
  sched : String
  args : String
deriving DecidableEq, Repr

/-- The `ModeDefinition` struct deserialized from the configuration file. -/
structure ModeDefinition where
  sched : String
  args : String
deriving DecidableEq, Repr

/-- Embedding of `impl From<ModeDefinition> for Mode` (src/main.rs lines 73-80). -/
def Mode.ofDefinition (d : ModeDefinition) : Mode :=
  ⟨d.sched, d.args⟩

/-- Severity of a `tracing` log line. -/
inductive LogLevel
  | info
  | warn
  | error
deriving DecidableEq, Repr

/-- One emitted log line. -/
structure LogEntry where
  level : LogLevel
  msg : String
deriving DecidableEq, Repr

/-- Result of a completed subprocess (`std::process::Output`): `code = none`
models termination without an exit code (killed by a signal). -/
structure Output where
  code : Option Int
  stdout : String
  stderr : String
deriving DecidableEq, Repr

/-- Embedding of `ExitStatus::success()`: the process exited with code 0. -/
def Output.success (o : Output) : Bool :=
  o.code == some 0

/-- The external world seen through `scxctl`: a map from the argument list to
either a spawn failure (error message) or the completed process output. -/
def Env : Type :=
  List String → Except String Output

/-- Embedding of the `scxctl` helper (src/main.rs lines 201-210): runs the binary and wraps
a spawn failure with the context "failed to exec scxctl". -/
def scxctl_run (env : Env) (args : List String) : Except String Output :=
  match env args with
  | .error e => .error ("failed to exec scxctl: " ++ e)
  | .ok o => .ok o

/-- Executable infix test on character lists: `pat` occurs contiguously in
the haystack. -/
def infixOf (pat : List Char) : List Char → Bool
  | [] => pat.isPrefixOf []
  | c :: t => pat.isPrefixOf (c :: t) || infixOf pat t

/-- Per-character lowercasing, modelling Rust `str::to_lowercase` on the
ASCII content the daemon inspects (structurally recursive so that it is
kernel-computable). -/
def toLowerStr (s : String) : String :=
  ⟨s.toList.map Char.toLower⟩

/-- Whitespace trimming at both ends, modelling Rust `str::trim`
(structurally recursive so that it is kernel-computable). -/
def trimStr (s : String) : String :=
  ⟨((s.toList.dropWhile Char.isWhitespace).reverse.dropWhile
      Char.isWhitespace).reverse⟩

/-- Case-sensitive substring test, used to model Rust `str::contains` with a
string pattern. -/
def containsSub (s pat : String) : Bool :=
  infixOf pat.toList s.toList

/-- The marker substring that `scx_running` looks for in `scxctl get` output. -/
def runMarker : String :=
  "no scx scheduler running"

/-- Value returned by the run-state probe: the derived boolean plus the log
lines emitted while probing. -/
structure ProbeResult where
  running : Bool
  logs : List LogEntry
deriving DecidableEq, Repr

/-- Embedding of `scx_running` (src/main.rs lines 212-224): runs `scxctl get`; a nonzero
exit status is only logged (warn) and the boolean is derived solely from
stdout: true iff the lowercased stdout does not contain `runMarker`. -/
def scx_running (env : Env) : Except String ProbeResult :=
  match scxctl_run env ["get"] with
  | .error e => .error e
  | .ok out =>
    let logs : List LogEntry :=
      if out.success then []
      else [⟨.warn, "scxctl get exit=" ++ toString (out.code.getD (-1)) ++
              " stderr=" ++ trimStr out.stderr⟩]
    .ok ⟨!(containsSub (toLowerStr out.stdout) runMarker), logs⟩

/-- Failure classification of `apply_mode` (the anyhow errors it can return,
with the data the Rust error messages carry made explicit). -/
inductive ApplyError
  | probeFailed (msg : String)
  | invokeExecFailed (msg : String)
  | toolFailed (subcmd : String) (exitCode : Int) (stderr : String)
deriving DecidableEq, Repr

/-- Rendering of an `ApplyError` as the anyhow message text. -/
def ApplyError.render : ApplyError → String
  | .probeFailed m => m
  | .invokeExecFailed m => m
  | .toolFailed subcmd exitCode stderr =>
    "scxctl " ++ subcmd ++ " failed (exit=" ++ toString exitCode ++ "): " ++ stderr

/-- Everything observable about one `apply_mode` call: its result, the log
lines it emitted, and the `scxctl` argument lists it issued, in order. -/
structure ApplyResult where
  result : Except ApplyError Unit
  logs : List LogEntry
  calls : List (List String)

/-- Embedding of `apply_mode` (src/main.rs lines 226-257): probe the run state, choose
`switch` (running) or `start` (not running), invoke `scxctl` once with
`--sched <sched>` and the single token `--args=<args>`, and classify the
outcome. On success the trimmed stdout is logged only when non-empty. -/
def apply_mode (env : Env) (mode : Mode) : ApplyResult :=
  match scx_running env with
  | .error e => ⟨.error (.probeFailed ("probe scx running: " ++ e)), [], [["get"]]⟩
  | .ok probe =>
    let subcmd := if probe.running then "switch" else "start"
    let applyLog : LogEntry :=
      ⟨.info, "[apply] subcmd=" ++ subcmd ++ " sched=" ++ mode.sched ++
        " args=" ++ mode.args⟩
    let inv := [subcmd, "--sched", mode.sched, "--args=" ++ mode.args]
    match scxctl_run env inv with
    | .error e => ⟨.error (.invokeExecFailed e), probe.logs ++ [applyLog], [["get"], inv]⟩
    | .ok out =>
      if out.success then
        ⟨.ok (), probe.logs ++ [applyLog] ++
          (if trimStr out.stdout = "" then []
            else [⟨.info, "[scxctl] " ++ trimStr out.stdout⟩]),
          [["get"], inv]⟩
      else
        ⟨.error (.toolFailed subcmd (out.code.getD (-1)) (trimStr out.stderr)),
          probe.logs ++ [applyLog], [["get"], inv]⟩

/-- The D-Bus interface name the event loop filters on (`IFACE`). -/
def IFACE : String :=
  "net.hadess.PowerProfiles"

/-- Outcome of decoding the `ActiveProfile` entry of the changed-properties
map (`Value::try_from` at src/main.rs line 158): a string value, a value of
some other variant, or a decode failure. -/
inductive DecodedValue
  | str (s : String)
  | nonStr
  | decodeErr (e : String)
deriving DecidableEq, Repr

/-- The relevant content of one `PropertiesChanged` signal whose arguments
decoded: the interface name and the (optional) `ActiveProfile` entry. -/
structure EventArgs where
  interface_name : String
  activeProfile : Option DecodedValue
deriving DecidableEq, Repr

/-- One signal from the subscription stream: either `signal.args()` failed to
decode, or it yielded `EventArgs`. -/
inductive Signal
  | argsErr (e : String)
  | ok (a : EventArgs)
deriving DecidableEq, Repr

/-- Everything observable about one event-loop iteration: the new `last`
value, the log lines emitted, and the modes the Mode Applier was invoked on. -/
structure StepResult where
  last : Option Profile
  logs : List LogEntry
  applierCalls : List Mode
deriving DecidableEq, Repr

/-- The info line logged when a distinct valid profile event is processed. -/
def event_log (p : Profile) : LogEntry :=
  ⟨.info, "[event] ActiveProfile " ++ p.as_config_key⟩

/-- The warn line logged when no mode is configured for a profile. -/
def no_mode_log (p : Profile) : LogEntry :=
  ⟨.warn, "no mode configured for profile " ++ p.as_config_key⟩

/-- One iteration of the event loop (src/main.rs lines 143-185), parameterised
over the configured lookup table and the Mode Applier result. -/
def handle_event (lookup : Profile → Option Mode)
    (applyFn : Mode → Except ApplyError Unit)
    (last : Option Profile) (sig : Signal) : StepResult :=
  match sig with
  | .argsErr e => ⟨last, [⟨.warn, "signal args decode failed: " ++ e⟩], []⟩
  | .ok a =>
    if a.interface_name = IFACE then
      match a.activeProfile with
      | none => ⟨last, [], []⟩
      | some (.decodeErr e) => ⟨last, [⟨.warn, "value decode failed: " ++ e⟩], []⟩
      | some .nonStr => ⟨last, [⟨.warn, "unexpected variant for ActiveProfile"⟩], []⟩
      | some (.str s) =>
        match Profile.from_str s with
        | .error e => ⟨last, [⟨.warn, "unknown profile in event: " ++ e⟩], []⟩
        | .ok p =>
          if last = some p then
            ⟨last, [], []⟩
          else
            match lookup p with
            | some mode =>
              match applyFn mode with
              | .error e =>
                ⟨last, [event_log p, ⟨.error, "apply_mode error: " ++ e.render⟩], [mode]⟩
              | .ok _ => ⟨some p, [event_log p], [mode]⟩
            | none => ⟨last, [event_log p, no_mode_log p], []⟩
    else ⟨last, [], []⟩

/-- Everything observable about the startup sync when it does not terminate
the process. -/
structure StartupResult where
  last : Option Profile
  logs : List LogEntry
  applierCalls : List Mode
deriving DecidableEq, Repr

/-- The info line logged at startup for the parsed active profile. -/
def startup_log (p : Profile) : LogEntry :=
  ⟨.info, "[startup] ActiveProfile " ++ p.as_config_key⟩

/-- The startup sync (src/main.rs lines 110-132): parse the read profile; a
parse failure or a missing mode only warns and leaves `last = none`; a mode
application failure propagates (the `?` terminates the process). -/
def startup_sync (lookup : Profile → Option Mode)
    (applyFn : Mode → Except ApplyError Unit)
    (raw : String) : Except ApplyError StartupResult :=
  match Profile.from_str raw with
  | .error e => .ok ⟨none, [⟨.warn, "[startup] " ++ e⟩], []⟩
  | .ok p =>
    match lookup p with
    | none => .ok ⟨none, [startup_log p, no_mode_log p], []⟩
    | some mode =>
      match applyFn mode with
      | .error e => .error e
      | .ok _ => .ok ⟨some p, [startup_log p], [mode]⟩

/-- Membership test of the accumulated mode table
(`modes.contains_key` / the `insert ... is_some` duplicate probe). -/
def hasProfile (acc : List (Profile × Mode)) (p : Profile) : Bool :=
  acc.any (fun e => e.1 == p)

/-- The validation loop of `load_config` (src/main.rs lines 267-288) over the
deserialized `(key, definition)` entries: each key must parse as a `Profile`,
no profile may occur twice, and finally every profile of `Profile.all` must
be present. Error messages name the offending key or profile and the
configuration path. -/
def validateModes (pathStr : String) :
    List (String × ModeDefinition) → List (Profile × Mode) →
    Except String (List (Profile × Mode))
  | [], acc =>
    match Profile.all.find? (fun p => !(hasProfile acc p)) with
    | some p =>
      .error ("configuration " ++ pathStr ++ " missing profile " ++ p.as_config_key)
    | none => .ok acc
  | (key, defn) :: rest, acc =>
    match Profile.from_str key with
    | .error _ => .error ("unknown profile " ++ key ++ " in " ++ pathStr)
    | .ok p =>
      if hasProfile acc p then
        .error ("duplicate configuration for profile " ++ p.as_config_key ++
          " in " ++ pathStr)
      else
        validateModes pathStr rest (acc ++ [(p, Mode.ofDefinition defn)])

/-- Mode-table construction of `load_config`, starting from an empty table. -/
def load_config_modes (pathStr : String)
    (entries : List (String × ModeDefinition)) :
    Except String (List (Profile × Mode)) :=
  validateModes pathStr entries []

/-- Parse every key of the entry list; `none` as soon as one key is not a
recognised profile. -/
def parseKeys : List (String × ModeDefinition) → Option (List Profile)
  | [] => some []
  | (key, _) :: rest =>
    match Profile.from_str key with
    | .error _ => none
    | .ok p => (parseKeys rest).map (fun ps => p :: ps)

/-! Helper lemmas. -/

lemma mem_profile_all (p : Profile) : p ∈ Profile.all := by
  cases p <;> simp [Profile.all]

lemma hasProfile_iff (acc : List (Profile × Mode)) (p : Profile) :
    hasProfile acc p = true ↔ p ∈ acc.map Prod.fst := by
  simp [hasProfile, List.any_eq_true, List.mem_map]

/-! Claim theorems. -/

/-- Claim C9: parsing succeeds exactly for the three profile keys, each parse
round-trips through `as_config_key` back to the input, and parsing the config
key of any profile yields that profile. -/
theorem profile_parse_roundtrip :
    (∀ p : Profile, Profile.from_str p.as_config_key = Except.ok p) ∧
    (∀ s : String,
      ((Profile.from_str s).isOk ↔
        s = "performance" ∨ s = "balanced" ∨ s = "power-saver") ∧
      ∀ p : Profile, Profile.from_str s = Except.ok p → p.as_config_key = s) := by
  refine ⟨fun p => by cases p <;> rfl, fun s => ⟨?_, ?_⟩⟩
  · unfold Profile.from_str
    split_ifs with h1 h2 h3 <;> simp_all [Except.isOk, Except.toBool]
  · intro p hp
    unfold Profile.from_str at hp
    split_ifs at hp with h1 h2 h3 <;>
      first
        | (injection hp with hp; subst hp; rw [h1]; rfl)
        | (injection hp with hp; subst hp; rw [h2]; rfl)
        | (injection hp with hp; subst hp; rw [h3]; rfl)

/-- Witness for C9 at the concrete input "power-saver". -/
theorem profile_parse_roundtrip_witness :
    Profile.from_str "power-saver" = Except.ok Profile.PowerSaver ∧
    Profile.PowerSaver.as_config_key = "power-saver" :=
  ⟨profile_parse_roundtrip.1 Profile.PowerSaver,
    (profile_parse_roundtrip.2 "power-saver").2 Profile.PowerSaver
      (profile_parse_roundtrip.1 Profile.PowerSaver)⟩

/-- Claim C1: an event on the watched interface whose ActiveProfile string
parses to the profile already recorded in `last` is skipped silently: no log
line, no Mode Applier invocation, `last` unchanged. -/
theorem dedup_skips_silently
    (lookup : Profile → Option Mode) (applyFn : Mode → Except ApplyError Unit)
    (p : Profile) (s : String) (h : Profile.from_str s = Except.ok p) :
    handle_event lookup applyFn (some p)
        (Signal.ok ⟨IFACE, some (DecodedValue.str s)⟩) =
      ⟨some p, [], []⟩ := by
  simp [handle_event, h]

/-- Witness for C1: a redundant `balanced` notification with
`last = some Balanced`. -/
theorem dedup_skips_silently_witness :
    handle_event (fun _ => none) (fun _ => Except.ok ()) (some Profile.Balanced)
        (Signal.ok ⟨IFACE, some (DecodedValue.str "balanced")⟩) =
      ⟨some Profile.Balanced, [], []⟩ :=
  dedup_skips_silently _ _ Profile.Balanced "balanced" rfl

/-- Claim C2: for an event whose profile differs from `last` and has a mode
entry, an Applier failure is logged at error severity with `last` unchanged,
while an Applier success sets `last` to the new profile. -/
theorem event_apply_outcome
    (lookup : Profile → Option Mode) (applyFn : Mode → Except ApplyError Unit)
    (last : Option Profile) (p : Profile) (s : String) (mode : Mode)
    (hs : Profile.from_str s = Except.ok p) (hne : last ≠ some p)
    (hm : lookup p = some mode) :
    (∀ e, applyFn mode = Except.error e →
      handle_event lookup applyFn last
          (Signal.ok ⟨IFACE, some (DecodedValue.str s)⟩) =
        ⟨last, [event_log p, ⟨.error, "apply_mode error: " ++ e.render⟩], [mode]⟩) ∧
    (applyFn mode = Except.ok () →
      handle_event lookup applyFn last
          (Signal.ok ⟨IFACE, some (DecodedValue.str s)⟩) =
        ⟨some p, [event_log p], [mode]⟩) := by
  constructor
  · intro e he
    simp [handle_event, hs, hne, hm, he]
  · intro hok
    simp [handle_event, hs, hne, hm, hok]

/-- Witness for C2: a `performance` event over `last = some Balanced` with a
failing Applier leaves `last` unchanged and logs at error severity. -/
theorem event_apply_outcome_witness :
    handle_event
        (fun q => if q = Profile.Performance then some ⟨"scx_lavd", "-p"⟩ else none)
        (fun _ => Except.error (ApplyError.toolFailed "start" 1 "boom"))
        (some Profile.Balanced)
        (Signal.ok ⟨IFACE, some (DecodedValue.str "performance")⟩) =
      ⟨some Profile.Balanced,
        [event_log Profile.Performance,
          ⟨LogLevel.error,
            "apply_mode error: " ++ (ApplyError.toolFailed "start" 1 "boom").render⟩],
        [⟨"scx_lavd", "-p"⟩]⟩ :=
  (event_apply_outcome _ _ _ Profile.Performance "performance" ⟨"scx_lavd", "-p"⟩
      rfl (by decide) rfl).1 _ rfl

/-- Claim C5: at startup, a parse failure or a missing mode entry only warns
and enters the loop with `last = none` and no application attempted, while a
failing startup application terminates the whole process with that error. -/
theorem startup_sync_behavior
    (lookup : Profile → Option Mode) (applyFn : Mode → Except ApplyError Unit) :
    (∀ s e, Profile.from_str s = Except.error e →
      startup_sync lookup applyFn s =
        Except.ok ⟨none, [⟨.warn, "[startup] " ++ e⟩], []⟩) ∧
    (∀ s p, Profile.from_str s = Except.ok p → lookup p = none →
      startup_sync lookup applyFn s =
        Except.ok ⟨none, [startup_log p, no_mode_log p], []⟩) ∧
    (∀ s p mode err, Profile.from_str s = Except.ok p → lookup p = some mode →
      applyFn mode = Except.error err →
      startup_sync lookup applyFn s = Except.error err) := by
  refine ⟨fun s e h => ?_, fun s p hs hm => ?_, fun s p mode err hs hm ha => ?_⟩
  · simp [startup_sync, h]
  · simp [startup_sync, hs, hm]
  · simp [startup_sync, hs, hm, ha]

/-- Witness for C5: a missing mode entry only warns, and a failing startup
application terminates the process with that error. -/
theorem startup_sync_behavior_witness :
    startup_sync (fun _ => none) (fun _ => Except.ok ()) "balanced" =
      Except.ok ⟨none, [startup_log Profile.Balanced, no_mode_log Profile.Balanced], []⟩ ∧
    startup_sync (fun _ => some ⟨"scx_lavd", ""⟩)
        (fun _ => Except.error (ApplyError.toolFailed "start" 2 "bad")) "balanced" =
      Except.error (ApplyError.toolFailed "start" 2 "bad") :=
  ⟨(startup_sync_behavior _ _).2.1 "balanced" Profile.Balanced rfl rfl,
    (startup_sync_behavior _ _).2.2 "balanced" Profile.Balanced ⟨"scx_lavd", ""⟩
      _ rfl rfl rfl⟩

/-- Counterexample to Claim C7 as stated: with an absent mode entry, after the
first skipped event `last` is unchanged (here `none`), and a repeat of the
same profile is NOT suppressed by dedup: the lookup is reached again and the
warning is logged again (logs nonempty), contradicting the claimed silent
suppression. -/
theorem missing_mode_dedup_counterexample :
    (handle_event (fun _ => none) (fun _ => Except.ok ()) none
        (Signal.ok ⟨IFACE, some (DecodedValue.str "performance")⟩)).last = none ∧
    (handle_event (fun _ => none) (fun _ => Except.ok ())
        (handle_event (fun _ => none) (fun _ => Except.ok ()) none
          (Signal.ok ⟨IFACE, some (DecodedValue.str "performance")⟩)).last
        (Signal.ok ⟨IFACE, some (DecodedValue.str "performance")⟩)).logs ≠ [] := by
  constructor
  · rfl
  · intro h
    simp [handle_event, Profile.from_str, IFACE] at h

/-- Claim C7 (amended): a missing mode entry makes the event skip with a
warning and `last` unchanged; a later event with the same profile is NOT
dedup-suppressed (since `last` was not advanced): the lookup is reached again
and produces the same warning. -/
theorem missing_mode_warns_and_no_dedup
    (lookup : Profile → Option Mode) (applyFn : Mode → Except ApplyError Unit)
    (last : Option Profile) (p : Profile) (s : String)
    (hs : Profile.from_str s = Except.ok p) (hne : last ≠ some p)
    (hm : lookup p = none) :
    handle_event lookup applyFn last
        (Signal.ok ⟨IFACE, some (DecodedValue.str s)⟩) =
      ⟨last, [event_log p, no_mode_log p], []⟩ ∧
    handle_event lookup applyFn
        (handle_event lookup applyFn last
          (Signal.ok ⟨IFACE, some (DecodedValue.str s)⟩)).last
        (Signal.ok ⟨IFACE, some (DecodedValue.str s)⟩) =
      ⟨last, [event_log p, no_mode_log p], []⟩ := by
  have h1 : handle_event lookup applyFn last
      (Signal.ok ⟨IFACE, some (DecodedValue.str s)⟩) =
      ⟨last, [event_log p, no_mode_log p], []⟩ := by
    simp [handle_event, hs, hne, hm]
  refine ⟨h1, ?_⟩
  rw [h1]
  exact h1

/-- Witness for the amended C7: a `performance` event with an empty table,
processed twice from `last = none`. -/
theorem missing_mode_warns_and_no_dedup_witness :
    handle_event (fun _ => none) (fun _ => Except.ok ()) none
        (Signal.ok ⟨IFACE, some (DecodedValue.str "performance")⟩) =
      ⟨none, [event_log Profile.Performance, no_mode_log Profile.Performance], []⟩ ∧
    handle_event (fun _ => none) (fun _ => Except.ok ())
        (handle_event (fun _ => none) (fun _ => Except.ok ()) none
          (Signal.ok ⟨IFACE, some (DecodedValue.str "performance")⟩)).last
        (Signal.ok ⟨IFACE, some (DecodedValue.str "performance")⟩) =
      ⟨none, [event_log Profile.Performance, no_mode_log Profile.Performance], []⟩ :=
  missing_mode_warns_and_no_dedup _ _ none Profile.Performance "performance"
    rfl (by decide) rfl

lemma scx_running_isOk (env : Env) :
    (scx_running env).isOk = (env ["get"]).isOk := by
  unfold scx_running scxctl_run
  cases h : env ["get"] <;> simp [Except.isOk, Except.toBool]

lemma scx_running_of_ok (env : Env) (out : Output)
    (h : env ["get"] = Except.ok out) :
    scx_running env =
      Except.ok ⟨!(containsSub (toLowerStr out.stdout) runMarker),
        if out.success then []
        else [⟨.warn, "scxctl get exit=" ++ toString (out.code.getD (-1)) ++
                " stderr=" ++ trimStr out.stderr⟩]⟩ := by
  unfold scx_running scxctl_run
  rw [h]

/-- Claim C3: the run-state boolean is derived solely from stdout (true iff
the lowercased stdout does not contain the marker substring); a nonzero exit
status only produces a warn log and does not change the derivation, and empty
stdout yields true. -/
theorem scx_running_spec (env : Env) (out : Output)
    (h : env ["get"] = Except.ok out) :
    ∃ r : ProbeResult, scx_running env = Except.ok r ∧
      (r.running = true ↔ containsSub (toLowerStr out.stdout) runMarker = false) ∧
      (out.stdout = "" → r.running = true) ∧
      r.logs = (if out.success then []
        else [⟨.warn, "scxctl get exit=" ++ toString (out.code.getD (-1)) ++
                " stderr=" ++ trimStr out.stderr⟩]) := by
  refine ⟨_, scx_running_of_ok env out h, ?_, ?_, rfl⟩
  · simp
  · intro he
    show (!(containsSub (toLowerStr out.stdout) runMarker)) = true
    rw [he]
    decide

/-- Concrete environment for the C3 witness: `scxctl get` exits 1 with empty
stdout. -/
def probeEnvFail : Env := fun args =>
  if args = ["get"] then Except.ok ⟨some 1, "", "oops"⟩ else Except.error "unused"

/-- Witness for C3: a completed `scxctl get` with exit status 1 and empty
stdout still yields running = true, with only a warn log. -/
theorem scx_running_spec_witness :
    ∃ r : ProbeResult, scx_running probeEnvFail = Except.ok r ∧
      (r.running = true ↔
        containsSub (toLowerStr (Output.mk (some 1) "" "oops").stdout) runMarker = false) ∧
      ((Output.mk (some 1) "" "oops").stdout = "" → r.running = true) ∧
      r.logs = (if (Output.mk (some 1) "" "oops").success then []
        else [⟨.warn, "scxctl get exit=" ++
                toString ((Output.mk (some 1) "" "oops").code.getD (-1)) ++
                " stderr=" ++ trimStr (Output.mk (some 1) "" "oops").stderr⟩]) :=
  scx_running_spec probeEnvFail ⟨some 1, "", "oops"⟩ rfl

/-- Claim C10: the run-state probe errors exactly when executing `scxctl get`
fails to complete; every completed execution yields Ok regardless of exit
status, and `apply_mode` reports a probe failure exactly in that exec-failure
case. -/
theorem probe_error_only_on_exec_failure (env : Env) (mode : Mode) :
    ((scx_running env).isOk = (env ["get"]).isOk) ∧
    ((∃ m, (apply_mode env mode).result = Except.error (ApplyError.probeFailed m)) ↔
      (env ["get"]).isOk = false) := by
  refine ⟨scx_running_isOk env, ?_⟩
  unfold apply_mode
  cases h : scx_running env with
  | error e =>
    have hg : (env ["get"]).isOk = false := by
      rw [← scx_running_isOk, h]
      rfl
    simp [hg]
  | ok probe =>
    have hg : (env ["get"]).isOk = true := by
      rw [← scx_running_isOk, h]
      rfl
    simp only [hg]
    cases h2 : scxctl_run env
        [(if probe.running then "switch" else "start"), "--sched", mode.sched,
          "--args=" ++ mode.args] with
    | error e => simp [h2]
    | ok out =>
      by_cases hsucc : out.success = true <;> simp [h2, hsucc]

/-- Concrete environment for the C10 witness: spawning `scxctl` always fails. -/
def spawnFailEnv : Env := fun _ => Except.error "No such file or directory"

/-- Witness for C10: when exec fails, `apply_mode` reports a probe failure. -/
theorem probe_error_only_on_exec_failure_witness :
    ∃ m, (apply_mode spawnFailEnv ⟨"scx_lavd", ""⟩).result =
      Except.error (ApplyError.probeFailed m) :=
  (probe_error_only_on_exec_failure spawnFailEnv ⟨"scx_lavd", ""⟩).2.mpr rfl

/-- Claim C4: with a completed probe, `apply_mode` issues exactly one mode
invocation after the probe: subcommand `switch` when the probe derives
running, `start` otherwise, with `--sched <sched>` and the single token
`--args=<args>`; no retry happens in any outcome. -/
theorem apply_mode_call_shape (env : Env) (mode : Mode) (out : Output)
    (h : env ["get"] = Except.ok out) :
    (apply_mode env mode).calls =
      [["get"],
        [(if !(containsSub (toLowerStr out.stdout) runMarker) then "switch" else "start"),
          "--sched", mode.sched, "--args=" ++ mode.args]] := by
  unfold apply_mode
  rw [scx_running_of_ok env out h]
  dsimp only
  cases h2 : scxctl_run env
      [(if !(containsSub (toLowerStr out.stdout) runMarker) then "switch" else "start"),
        "--sched", mode.sched, "--args=" ++ mode.args] with
  | error e => simp [h2]
  | ok out2 =>
    by_cases hsucc : out2.success = true <;> simp [h2, hsucc]

/-- Concrete environment for the C4 witness: `scxctl get` reports that no scx
scheduler is running; every other invocation succeeds. -/
def startEnv : Env := fun args =>
  if args = ["get"] then Except.ok ⟨some 0, "no scx scheduler running", ""⟩
  else Except.ok ⟨some 0, "", ""⟩

/-- Witness for C4: with the marker present the single mode invocation uses
`start` and carries the payload as one `--args=` token. -/
theorem apply_mode_call_shape_witness :
    (apply_mode startEnv ⟨"scx_lavd", "--performance"⟩).calls =
      [["get"], ["start", "--sched", "scx_lavd", "--args=--performance"]] :=
  (apply_mode_call_shape startEnv ⟨"scx_lavd", "--performance"⟩
      ⟨some 0, "no scx scheduler running", ""⟩ rfl).trans (by decide)

/-- Claim C8: a completed mode invocation with nonzero exit yields a failure
carrying the subcommand, the numeric exit code (sentinel -1 without a code),
and the trimmed stderr; on success `apply_mode` returns Ok and logs the
trimmed stdout only when non-empty. -/
theorem apply_mode_outcome (env : Env) (mode : Mode) (pout tout : Output)
    (subcmd : String)
    (hp : env ["get"] = Except.ok pout)
    (hsub : subcmd =
      if !(containsSub (toLowerStr pout.stdout) runMarker) then "switch" else "start")
    (ht : env [subcmd, "--sched", mode.sched, "--args=" ++ mode.args] =
      Except.ok tout) :
    (tout.success = false →
      (apply_mode env mode).result =
        Except.error (ApplyError.toolFailed subcmd (tout.code.getD (-1))
          (trimStr tout.stderr))) ∧
    (tout.success = true →
      (apply_mode env mode).result = Except.ok () ∧
      (apply_mode env mode).logs =
        (if pout.success then []
          else [⟨.warn, "scxctl get exit=" ++ toString (pout.code.getD (-1)) ++
                  " stderr=" ++ trimStr pout.stderr⟩]) ++
        [⟨.info, "[apply] subcmd=" ++ subcmd ++ " sched=" ++ mode.sched ++
            " args=" ++ mode.args⟩] ++
        (if trimStr tout.stdout = "" then []
          else [⟨.info, "[scxctl] " ++ trimStr tout.stdout⟩])) := by
  subst hsub
  have ht' : scxctl_run env
      [(if !(containsSub (toLowerStr pout.stdout) runMarker) then "switch" else "start"),
        "--sched", mode.sched, "--args=" ++ mode.args] = Except.ok tout := by
    unfold scxctl_run
    rw [ht]
  simp only [Bool.not_eq_true'] at ht'
  constructor
  · intro hfail
    simp [apply_mode, scx_running_of_ok env pout hp, ht', hfail]
  · intro hok
    refine ⟨?_, ?_⟩ <;>
      simp [apply_mode, scx_running_of_ok env pout hp, ht', hok]

/-- Concrete environment for the C8 witness: the probe reports a running
scheduler and the `switch` invocation exits 3 with stderr to be trimmed. -/
def switchEnv : Env := fun args =>
  if args = ["get"] then Except.ok ⟨some 0, "scx_lavd running", ""⟩
  else if args = ["switch", "--sched", "scx_lavd", "--args=--performance"] then
    Except.ok ⟨some 3, "", " boom "⟩
  else Except.error "unused"

/-- Witness for C8: a nonzero `switch` invocation yields the toolFailed error
carrying subcommand, exit code 3, and trimmed stderr. -/
theorem apply_mode_outcome_witness :
    (apply_mode switchEnv ⟨"scx_lavd", "--performance"⟩).result =
      Except.error (ApplyError.toolFailed "switch" 3 "boom") := by
  have h := (apply_mode_outcome switchEnv ⟨"scx_lavd", "--performance"⟩
      ⟨some 0, "scx_lavd running", ""⟩ ⟨some 3, "", " boom "⟩ "switch"
      rfl (by decide) rfl).1 rfl
  exact h

lemma isPrefixOf_self_append (l r : List Char) : l.isPrefixOf (l ++ r) = true := by
  induction l with
  | nil => simp
  | cons c t ih => simp [List.isPrefixOf, ih]

lemma infixOf_append_right (pat pre rest : List Char)
    (h : infixOf pat rest = true) : infixOf pat (pre ++ rest) = true := by
  induction pre with
  | nil => simpa using h
  | cons c t ih => simp [infixOf, ih]

lemma infixOf_self_append (pat rest : List Char) :
    infixOf pat (pat ++ rest) = true := by
  cases hpr : pat ++ rest with
  | nil =>
    have hp : pat = [] := List.append_eq_nil.mp hpr |>.1
    subst hp
    rfl
  | cons c l =>
    simp only [infixOf, Bool.or_eq_true]
    exact Or.inl (by rw [← hpr]; exact isPrefixOf_self_append pat rest)

lemma containsSub_middle (a b c : String) : containsSub (a ++ b ++ c) b = true := by
  unfold containsSub
  have h : (a ++ b ++ c).toList = a.toList ++ (b.toList ++ c.toList) := by
    simp [String.toList, String.data_append]
  rw [h]
  exact infixOf_append_right _ _ _ (infixOf_self_append b.toList c.toList)

lemma containsSub_right (a b : String) : containsSub (a ++ b) b = true := by
  unfold containsSub
  have h : (a ++ b).toList = a.toList ++ (b.toList ++ []) := by
    simp [String.toList, String.data_append]
  rw [h]
  exact infixOf_append_right _ _ _ (infixOf_self_append b.toList [])

lemma containsSub_of_eq (msg a b c : String) (h : msg = a ++ b ++ c) :
    containsSub msg b = true := by
  rw [h]
  exact containsSub_middle a b c

lemma validateModes_isOk (pathStr : String) :
    ∀ (entries : List (String × ModeDefinition)) (acc : List (Profile × Mode)),
      (acc.map Prod.fst).Nodup →
      ((validateModes pathStr entries acc).isOk = true ↔
        ∃ ps, parseKeys entries = some ps ∧
          (acc.map Prod.fst ++ ps).Nodup ∧
          ∀ p : Profile, p ∈ acc.map Prod.fst ++ ps) := by
  intro entries
  induction entries with
  | nil =>
    intro acc hacc
    unfold validateModes
    cases hf : Profile.all.find? (fun p => !(hasProfile acc p)) with
    | some p =>
      have hp := List.find?_some hf
      have hnotmem : p ∉ acc.map Prod.fst := by
        rw [← hasProfile_iff]
        simp at hp
        simp [hp]
      simp only [Except.isOk, Except.toBool, parseKeys]
      constructor
      · intro hfalse
        exact absurd hfalse (by simp)
      · rintro ⟨ps, hps, hnd, hcomp⟩
        injection hps with hps
        subst hps
        exact absurd (by simpa using hcomp p) hnotmem
    | none =>
      have hmem : ∀ q : Profile, q ∈ acc.map Prod.fst := by
        intro q
        have h1 := List.find?_eq_none.mp hf q (mem_profile_all q)
        rw [← hasProfile_iff]
        simpa using h1
      simp [Except.isOk, Except.toBool, parseKeys, hacc, hmem]
  | cons e rest ih =>
    obtain ⟨key, defn⟩ := e
    intro acc hacc
    cases hk : Profile.from_str key with
    | error err =>
      simp [validateModes, hk, Except.isOk, Except.toBool, parseKeys]
    | ok p =>
      by_cases hdup : hasProfile acc p = true
      · have hpmem : p ∈ acc.map Prod.fst := (hasProfile_iff acc p).mp hdup
        simp only [validateModes, hk, hdup, if_true, Except.isOk, Except.toBool,
          parseKeys]
        constructor
        · intro hfalse
          exact absurd hfalse (by simp)
        · rintro ⟨ps, hps, hnd, hcomp⟩
          rw [Option.map_eq_some'] at hps
          obtain ⟨a, ha, rfl⟩ := hps
          rw [List.nodup_append] at hnd
          exact absurd (List.mem_cons_self p a) (hnd.2.2 hpmem)
      · have hnotmem : p ∉ acc.map Prod.fst := by
          rw [← hasProfile_iff]
          simpa using hdup
        have hacc2 : ((acc ++ [(p, Mode.ofDefinition defn)]).map Prod.fst).Nodup := by
          rw [List.map_append]
          rw [List.nodup_append]
          refine ⟨hacc, by simp, ?_⟩
          intro q hq hq2
          simp at hq2
          subst hq2
          exact hnotmem hq
        have hstep : validateModes pathStr ((key, defn) :: rest) acc =
            validateModes pathStr rest (acc ++ [(p, Mode.ofDefinition defn)]) := by
          simp [validateModes, hk, hdup]
        rw [hstep, ih _ hacc2]
        simp only [parseKeys, hk, Option.map_eq_some', List.map_append]
        constructor
        · rintro ⟨a, ha, hnd, hcomp⟩
          refine ⟨p :: a, ⟨a, ha, rfl⟩, ?_, ?_⟩
          · simpa [List.append_assoc] using hnd
          · intro q
            have := hcomp q
            simpa [List.append_assoc] using this
        · rintro ⟨ps, ⟨a, ha, rfl⟩, hnd, hcomp⟩
          refine ⟨a, ha, ?_, ?_⟩
          · simpa [List.append_assoc] using hnd
          · intro q
            have := hcomp q
            simpa [List.append_assoc] using this

lemma validateModes_error_names (pathStr : String) :
    ∀ (entries : List (String × ModeDefinition)) (acc : List (Profile × Mode))
      (msg : String),
      validateModes pathStr entries acc = Except.error msg →
      containsSub msg pathStr = true ∧
      ((∃ e ∈ entries, containsSub msg e.1 = true) ∨
        ∃ p : Profile, containsSub msg p.as_config_key = true) := by
  intro entries
  induction entries with
  | nil =>
    intro acc msg h
    unfold validateModes at h
    cases hf : Profile.all.find? (fun p => !(hasProfile acc p)) with
    | some p =>
      rw [hf] at h
      injection h with h
      refine ⟨containsSub_of_eq _ "configuration " pathStr
        (" missing profile " ++ p.as_config_key) (by rw [← h]; simp [String.append_assoc]), ?_⟩
      exact Or.inr ⟨p, by rw [← h]; exact containsSub_right _ _⟩
    | none =>
      rw [hf] at h
      exact absurd h (by simp)
  | cons e rest ih =>
    obtain ⟨key, defn⟩ := e
    intro acc msg h
    cases hk : Profile.from_str key with
    | error err =>
      simp only [validateModes, hk] at h
      injection h with h
      refine ⟨by rw [← h]; exact containsSub_right _ _, ?_⟩
      refine Or.inl ⟨(key, defn), List.mem_cons_self _ _, ?_⟩
      exact containsSub_of_eq _ "unknown profile " key (" in " ++ pathStr)
        (by rw [← h]; simp [String.append_assoc])
    | ok p =>
      by_cases hdup : hasProfile acc p = true
      · simp only [validateModes, hk, hdup, if_true] at h
        injection h with h
        refine ⟨by rw [← h]; exact containsSub_right _ _, ?_⟩
        exact Or.inr ⟨p, containsSub_of_eq _ "duplicate configuration for profile "
          p.as_config_key (" in " ++ pathStr) (by rw [← h]; simp [String.append_assoc])⟩
      · have hstep : validateModes pathStr ((key, defn) :: rest) acc =
            validateModes pathStr rest (acc ++ [(p, Mode.ofDefinition defn)]) := by
          simp [validateModes, hk, hdup]
        rw [hstep] at h
        obtain ⟨hpath, hdisj⟩ := ih _ _ h
        refine ⟨hpath, ?_⟩
        rcases hdisj with ⟨e2, he2, hc⟩ | hp
        · exact Or.inl ⟨e2, List.mem_cons_of_mem _ he2, hc⟩
        · exact Or.inr hp

/-- Claim C6: the mode-table construction succeeds exactly when every key is
a recognised profile and the parsed profiles are duplicate-free and cover all
three profiles; on failure the error message names the configuration path and
an offending entry key or profile key. -/
theorem load_config_validation (pathStr : String)
    (entries : List (String × ModeDefinition)) :
    ((load_config_modes pathStr entries).isOk = true ↔
      ∃ ps, parseKeys entries = some ps ∧ ps.Nodup ∧ ∀ p : Profile, p ∈ ps) ∧
    (∀ msg, load_config_modes pathStr entries = Except.error msg →
      containsSub msg pathStr = true ∧
      ((∃ e ∈ entries, containsSub msg e.1 = true) ∨
        ∃ p : Profile, containsSub msg p.as_config_key = true)) := by
  constructor
  · have h := validateModes_isOk pathStr entries [] (by simp)
    simpa [load_config_modes] using h
  · intro msg hmsg
    exact validateModes_error_names pathStr entries [] msg hmsg

/-- Concrete complete configuration for the C6 witness. -/
def goodEntries : List (String × ModeDefinition) :=
  [("performance", ⟨"scx_lavd", "--performance"⟩),
    ("balanced", ⟨"scx_lavd", ""⟩),
    ("power-saver", ⟨"scx_rustland", "--powersave"⟩)]

/-- Concrete duplicated configuration for the C6 witness. -/
def dupEntries : List (String × ModeDefinition) :=
  [("balanced", ⟨"a", "b"⟩), ("balanced", ⟨"c", "d"⟩)]

/-- Witness for C6: a complete and unique configuration constructs, and a
duplicate entry fails with a message naming the configuration path. -/
theorem load_config_validation_witness :
    (load_config_modes "/etc/scx-power-sync-dbus/config.yaml" goodEntries).isOk = true ∧
    containsSub "duplicate configuration for profile balanced in /etc/cfg.yaml"
      "/etc/cfg.yaml" = true :=
  ⟨((load_config_validation "/etc/scx-power-sync-dbus/config.yaml" goodEntries).1).mpr
      ⟨[Profile.Performance, Profile.Balanced, Profile.PowerSaver], rfl, by decide,
        by intro p; cases p <;> decide⟩,
    ((load_config_validation "/etc/cfg.yaml" dupEntries).2
        "duplicate configuration for profile balanced in /etc/cfg.yaml" rfl).1⟩

end ScxPowerSync
